import Mathlib

/-!
Verification development for `neuropythy/util/filemap.py` (459 lines):
the PseudoDir virtual-directory backends and the FileMap instruction-driven
lazy tree builder.  Python code is shallowly embedded: mappings become
association lists (`List (String × α)`, insertion-ordered like Python dicts),
fallible code returns `Except PyErr`, and the mutable parser state of
`FileMap.parse_instructions` is threaded explicitly.  Definitions are
translated from the source, bugs included: several code paths of the source
evaluate names that are unbound at runtime (`inst`, `miss`, `fn`,
`_path_to_pathgen`, `PsudoDir`, `os.path.hoin`, `FileMap._deduce_filename`);
those evaluations are embedded as the corresponding Python exceptions.
-/

set_option linter.unusedVariables false

/-- The Python exceptions that the embedded code can raise. -/
inductive PyErr where
  | nameError (n : String)
  | unboundLocal (n : String)
  | attributeError (n : String)
  | keyError (k : String)
  | typeError (msg : String)
  | valueError (msg : String)
  | indexError (msg : String)
deriving Repr, DecidableEq

/-- `exOk e` is true when the embedded computation `e` did not raise. -/
def exOk {α : Type} : Except PyErr α → Bool
  | .ok _ => true
  | .error _ => false

/-- Python `d[k]` lookup on an insertion-ordered association list. -/
def assocLookup {α : Type} (l : List (String × α)) (k : String) : Option α :=
  match l.find? (fun kv => kv.1 = k) with
  | some kv => some kv.2
  | none => none

/-- Python `k in d` membership test. -/
def assocHas {α : Type} (l : List (String × α)) (k : String) : Bool :=
  (assocLookup l k).isSome

/-- Python `d[k] = v`: update in place when the key exists (position kept),
otherwise append, exactly like insertion-ordered dict assignment. -/
def assocSet {α : Type} (l : List (String × α)) (k : String) (v : α) :
    List (String × α) :=
  match l with
  | [] => [(k, v)]
  | kv :: rest =>
      if kv.1 = k then (k, v) :: rest else kv :: assocSet rest k v

/-- `pimms.merge(a, b)` for two mappings: start from `a`, then write every
entry of `b` over it, so the right-hand map wins on key conflicts. -/
def pymerge {α : Type} (a b : List (String × α)) : List (String × α) :=
  b.foldl (fun acc kv => assocSet acc kv.1 kv.2) a

/-- `pimms.merge(*argmaps)` over a list of mappings, left to right, the
right-most map taking precedence. -/
def pymergeList {α : Type} (ms : List (List (String × α))) :
    List (String × α) :=
  ms.foldl (fun acc m => pymerge acc m) []

/-- Character-based `s.startswith(pre)` (Python string tests are
character-wise; the byte-position built-ins are avoided so every definition
evaluates inside the kernel). -/
def strStartsWith (s pre : String) : Bool :=
  pre.data.isPrefixOf s.data

/-- Character-based `s.endswith(suf)`. -/
def strEndsWith (s suf : String) : Bool :=
  suf.data.isSuffixOf s.data

/-- Character-based `s[n:]` slicing. -/
def strDropChars (s : String) (n : Nat) : String :=
  String.mk (s.data.drop n)

/-- Character-based `s.lower()`. -/
def strLower (s : String) : String :=
  String.mk (s.data.map Char.toLower)

/-- Split a character list around the first occurrence of `sub`: `(b, a)`
with the input equal to `b ++ sub ++ a`, or none when `sub` does not occur
(`sub` is nonempty in every use). -/
def splitFirst : List Char → List Char → Option (List Char × List Char)
  | [], sub => if sub.isEmpty then some ([], []) else none
  | c :: rest, sub =>
      if sub.isPrefixOf (c :: rest) then some ([], (c :: rest).drop sub.length)
      else
        match splitFirst rest sub with
        | some (b, a) => some (c :: b, a)
        | none => none

/-- Python substring test `sub in s` (for nonempty `sub`). -/
def strContains (s sub : String) : Bool :=
  (splitFirst s.data sub.data).isSome

/-- `os.path.join` / `posixpath.join` of two segments (identical on POSIX,
which is what the source relies on): an absolute second segment replaces the
first, otherwise the segments are joined with a single slash. -/
def pathJoin2 (a b : String) : String :=
  if strStartsWith b "/" then b
  else if a = "" || strEndsWith a "/" then a ++ b
  else a ++ "/" ++ b

/-- `os.path.join(*segments)`: with zero arguments Python raises TypeError
(this is what makes `os.path.join(*dirstack)` fail on an empty directory
stack at filemap.py:311), otherwise the segments are folded with
`pathJoin2`. -/
def pathJoinList : List String → Except PyErr String
  | [] => .error (.typeError "join() missing 1 required positional argument")
  | p :: rest => .ok (rest.foldl pathJoin2 p)

def lbrace : Char := Char.ofNat 123

def rbrace : Char := Char.ofNat 125

/-- Scanner state for the `str.format` embedding: outside any replacement
field, inside a field (the reversed field name read so far), or just after a
lone closing brace (which must be followed by a second one). -/
inductive FmtMode where
  | plain
  | field (acc : List Char)
  | closing
deriving Repr, DecidableEq

/-- Character-level embedding of `str.format(**m)` as used on the filename
templates of filemap.py:379, one character per step: plain text is copied, a
doubled brace is an escaped literal brace, a braced field name is looked up
in `m`; a missing key raises KeyError (the `TemplateResolutionError` of the
spec), an empty field raises IndexError (no positional arguments are
supplied), and an unterminated or stray brace raises ValueError, as in
Python.  Conversion/format-spec syntax after `!` or `:` is not used by any
filemap template and is not modelled: the whole bracketed text is the field
name. -/
def fmtAux (m : List (String × String)) :
    List Char → FmtMode → Except PyErr (List Char)
  | [], mode =>
      match mode with
      | .plain => .ok []
      | .field _ => .error (.valueError "Single opening brace encountered in format string")
      | .closing => .error (.valueError "Single closing brace encountered in format string")
  | c :: rest, mode =>
      match mode with
      | .closing =>
          if c = rbrace then
            match fmtAux m rest .plain with
            | .ok t => .ok (rbrace :: t)
            | .error e => .error e
          else .error (.valueError "Single closing brace encountered in format string")
      | .field acc =>
          if c = rbrace then
            let nm := String.mk acc.reverse
            if nm = "" then .error (.indexError "Replacement index out of range")
            else
              match assocLookup m nm with
              | some v =>
                  match fmtAux m rest .plain with
                  | .ok t => .ok (v.data ++ t)
                  | .error e => .error e
              | none => .error (.keyError nm)
          else if c = lbrace then
            if acc.isEmpty then
              match fmtAux m rest .plain with
              | .ok t => .ok (lbrace :: t)
              | .error e => .error e
            else .error (.valueError "unexpected opening brace in field name")
          else fmtAux m rest (.field (c :: acc))
      | .plain =>
          if c = lbrace then fmtAux m rest (.field [])
          else if c = rbrace then fmtAux m rest .closing
          else
            match fmtAux m rest .plain with
            | .ok t => .ok (c :: t)
            | .error e => .error e

/-- `flnm.format(**m)` on a whole string. -/
def formatTemplate (s : String) (m : List (String × String)) :
    Except PyErr String :=
  match fmtAux m s.data .plain with
  | .ok cs => .ok (String.mk cs)
  | .error e => .error e

instance {ε α : Type} [DecidableEq ε] [DecidableEq α] :
    DecidableEq (Except ε α) := fun a b =>
  match a, b with
  | .ok x, .ok y =>
      if h : x = y then isTrue (by rw [h]) else isFalse (by simp [h])
  | .error x, .error y =>
      if h : x = y then isTrue (by rw [h]) else isFalse (by simp [h])
  | .ok _, .error _ => isFalse (by simp)
  | .error _, .ok _ => isFalse (by simp)

/-- The loop of `FileMap._parse_path` (filemap.py:380-384): iterate the
supplemental-path names in order and strip the first `name:` prefix that
matches the formatted filename. -/
def stripLoop : List String → String → Option String × String
  | [], fm => (none, fm)
  | k :: rest, fm =>
      if strStartsWith fm (k ++ ":") then (some k, strDropChars fm (k.length + 1))
      else stripLoop rest fm

/-- `FileMap._parse_path(flnm, path, spaths, path_parameters, inst)`
(filemap.py:377-385): format the filename template over
`pimms.merge(path_parameters, inst)` (instruction fields win), then strip a
leading `name:` supplemental-path prefix if one of the configured names
matches; the `path` argument is accepted and unused, as in the source. -/
def parsePath (flnm : String) (path : String) (spathNames : List String)
    (path_parameters inst : List (String × String)) :
    Except PyErr (Option String × String) :=
  match formatTemplate flnm (pymerge path_parameters inst) with
  | .error e => .error e
  | .ok fm => .ok (stripLoop spathNames fm)


/-! ## PseudoDir virtual-directory backends (filemap.py:14-176)

The filesystem, network reachability and tar-archive contents are external
to the program; they are embedded as oracles (`isdir`, `isURL`) and as
explicit world states (`UrlWorld`, `TarWorld`) listing which cache files
exist and which archive members are present.  Successful extraction of an
existing member is assumed to create exactly the requested cache file. -/

/-- The environment oracles consulted by `PseudoDir._path_data`:
`os.path.isdir` (line 97) and `PseudoDir._is_url` reachability (line 109). -/
structure Env where
  isdir : String → Bool
  isURL : String → Bool

/-- The backend classification produced by `PseudoDir._path_data`
(filemap.py:95-135): an ordinary directory, a URL tree, a tarball with an
internal sub-path, or a plain tarball (the latter three carry the effective
cache directory). -/
inductive PathData where
  | dirBackend (sourcePath : String)
  | urlBackend (urlbase cache : String)
  | tarSubBackend (tarball innerPrefix cache : String)
  | tarBackend (tarball cache : String)
deriving Repr, DecidableEq

/-- `PseudoDir._tarball_endings` (filemap.py:19), in declaration order. -/
def tarballEndings : List String := [".tar", ".tar.gz", ".tar.bz2", ".tar.lzma"]

/-- `PseudoDir._path_data` (filemap.py:95-135), the backend classification:
an existing directory wins outright; otherwise the cache directory is fixed
(the supplied one, or the process temporary directory `tmpCache` allocated
by `tmpdir()` at line 105), an `s3:` prefix (case-insensitive) is rejected
with its dedicated ValueError (line 107), a reachable URL gives the URL
backend, a tarball ending followed by a colon splits the specification into
tarball and internal prefix (lines 118-126, first matching ending, split at
its first occurrence — `spl[0] + ss[:-1]` and `ss.join(spl[1:])` reassemble
exactly the text before and after that occurrence, and the no-split fallback
is unreachable since the marker was just found in the string), a trailing
tarball ending gives the plain tarball
backend, and anything else raises the `InvalidSourceError` ValueError of
line 135. -/
def pathData (env : Env) (sourcePath : String) (cachePath : Option String)
    (tmpCache : String) : Except PyErr PathData :=
  if env.isdir sourcePath then .ok (.dirBackend sourcePath)
  else
    let cache := cachePath.getD tmpCache
    if strStartsWith (strLower sourcePath) "s3:" then
      .error (.valueError "S3 URLs are not yet supported")
    else if env.isURL sourcePath then .ok (.urlBackend sourcePath cache)
    else
      match tarballEndings.find? (fun s => strContains sourcePath (s ++ ":")) with
      | some s =>
          match splitFirst sourcePath.data (s ++ ":").data with
          | some (b, a) => .ok (.tarSubBackend (String.mk b ++ s) (String.mk a) cache)
          | none => .ok (.tarSubBackend sourcePath "" cache)
      | none =>
          match tarballEndings.find? (fun s => strEndsWith sourcePath s) with
          | some _ => .ok (.tarBackend sourcePath cache)
          | none =>
              .error (.valueError ("Could not interpret source path: " ++ sourcePath))

/-- Directory-backend `exists` closure (filemap.py:100):
`os.path.exists(os.path.join(source_path, pth))` over the filesystem
oracle `fsExists`. -/
def dirExists (sourcePath pth : String) (fsExists : String → Bool) : Bool :=
  fsExists (pathJoin2 sourcePath pth)

/-- Directory-backend `getpath` closure (filemap.py:101):
`os.path.join(source_path, pth)` with no existence check and no cache, so it
is total and never raises. -/
def dirGetpath (sourcePath pth : String) : String :=
  pathJoin2 sourcePath pth

/-- The observable state of the URL backend: which cache files exist on disk
and how many network fetches have been performed. -/
structure UrlWorld where
  cached : List String
  fetches : Nat
deriving Repr, DecidableEq

/-- `PseudoDir._url_exists` (filemap.py:71-75): a cached file answers true;
otherwise the source evaluates `os.path.hoin(urlbase, path)` — a misspelling
of `join`, and `os.path` has no attribute `hoin` — so the cache-miss branch
raises AttributeError instead of probing the remote URL. -/
def urlExists (urlbase cachePath pth : String) (w : UrlWorld) :
    Except PyErr Bool :=
  if w.cached.contains (pathJoin2 cachePath pth) then .ok true
  else .error (.attributeError "hoin")

/-- `PseudoDir._url_getpath` (filemap.py:76-81): a cached file is returned;
otherwise the source evaluates `PsudoDir._url_get(url, cpath)` — a
misspelling of `PseudoDir`, and no global `PsudoDir` exists — so the
cache-miss branch raises NameError before any download; `_url_get` (and its
fetch) is unreachable, which is why `fetches` can never change. -/
def urlGetpath (urlbase cachePath pth : String) (w : UrlWorld) :
    Except PyErr (String × UrlWorld) :=
  if w.cached.contains (pathJoin2 cachePath pth) then
    .ok (pathJoin2 cachePath pth, w)
  else .error (.nameError "PsudoDir")

/-- The observable state of the tarball backend: which cache files exist on
disk, which member names the archive holds, and how many extractions have
been performed. -/
structure TarWorld where
  cached : List String
  members : List String
  extractions : Nat
deriving Repr, DecidableEq

/-- `PseudoDir._tar_exists` (filemap.py:82-88): a cached file answers true;
otherwise `tarfile.getmember(path)` is consulted — a present member (always
truthy) answers true, and the KeyError of a missing member is caught and
turned into False. -/
def tarExists (tarpath cachePath pth : String) (w : TarWorld) : Bool :=
  if w.cached.contains (pathJoin2 cachePath pth) then true
  else w.members.contains pth

/-- `PseudoDir._tar_getpath` (filemap.py:89-94): a cached file is returned
without touching the archive; otherwise `tfl.extract(path, cache_path)` runs
— extracting an existing member into the cache directory creates `cpath`,
while a missing member raises KeyError. -/
def tarGetpath (tarpath cachePath pth : String) (w : TarWorld) :
    Except PyErr (String × TarWorld) :=
  if w.cached.contains (pathJoin2 cachePath pth) then
    .ok (pathJoin2 cachePath pth, w)
  else if w.members.contains pth then
    .ok (pathJoin2 cachePath pth,
         { w with cached := pathJoin2 cachePath pth :: w.cached,
                  extractions := w.extractions + 1 })
  else .error (.keyError pth)

/-! ## FileMap._load (filemap.py:339-356)

The static method takes a path generator, a filename, the generic loader and
the argument maps to merge.  Its `try` block resolves the local path, merges
the argument maps and runs the loader; its miss-handling block is an
`if/elif` chain over the local variable `miss` that is only assigned inside
the first branch.  The embedding follows the source's actual control flow,
including the unbound-name errors this produces. -/

/-- `FileMap._load(pathgen, flnm, loadfn, *argmaps)` (filemap.py:339-356).
Inside the `try` (lines 341-347): `pathgen(flnm)` resolves the path — if it
raises, the local `args` is never assigned, so line 350's `'miss' in args`
raises UnboundLocalError("args") after the except clause; otherwise
`args = pimms.merge(*argmaps)`, and line 344/345 evaluate `inst['load']` /
`inst['filt']` whenever `'load'` / `'filt'` is a merged key — but no name
`inst` is bound in `_load`, so that raises NameError, which the bare
`except` downgrades to `dat = None`, as it does any loader exception.
After the `try` (lines 349-356): when `dat` is None and `'miss'` is a merged
key, `miss` is assigned and — the branches being an elif chain — nothing
further happens, so None is returned and `miss` is never consulted (the
raise-sentinel and the miss callable are dead code); in every other case
line 352 reads the unbound local `miss` and raises UnboundLocalError. -/
def pyLoad (pathgen : String → Except PyErr String) (flnm : String)
    (loadfn : String → List (String × String) → Except PyErr (Option String))
    (argmaps : List (List (String × String))) : Except PyErr (Option String) :=
  match pathgen flnm with
  | .error _ => .error (.unboundLocal "args")
  | .ok fnm =>
      let args := pymergeList argmaps
      let dat : Option String :=
        if assocHas args "load" then none
        else if assocHas args "filt" then none
        else
          match loadfn fnm args with
          | .error _ => none
          | .ok v => v
      if dat.isNone && assocHas args "miss" then .ok none
      else .error (.unboundLocal "miss")


/-! ## FileMap.parse_instructions (filemap.py:256-335)

Python instruction values — mappings, strings, lists and tuples — become the
tagged type `PyInst`; instruction-mapping field values are the tag-value
strings the engine compares and nests on.  The closure state of
`parse_instructions` (`dirstack`, `data_tree`, `data_files`, `hierarchies`)
is threaded explicitly as `PIState`, and the in-place mutation of the nested
`data_tree` dicts becomes a functional path insertion. -/

/-- A Python value appearing in an instruction set: a file-instruction
mapping (field name to tag value), a path-segment string, a list, or a
tuple. -/
inductive PyInst where
  | pmap (fields : List (String × String))
  | pstr (s : String)
  | plist (elems : List PyInst)
  | ptuple (elems : List PyInst)
deriving Repr

/-- A node of the nested `data_tree`: an inner dict, or a leaf — the
`pyr.pmap(inst).set('_relpath', flnm)` record of filemap.py:313. -/
inductive DTree where
  | node (children : List (String × DTree))
  | leaf (fields : List (String × String))
deriving Repr

/-- The closure state of `parse_instructions`: the directory-name stack (in
push order), the nested tree, the flat file table, and the hierarchy rows
(given ones first, synthesized ones appended). -/
structure PIState where
  dirstack : List String
  tree : DTree
  files : List (String × List (String × String))
  hierarchies : List (List String)
deriving Repr

/-- The reserved instruction fields of filemap.py:277, excluded when a
hierarchy row is synthesized. -/
def knownFilekeys : List String := ["load", "filt", "when", "then", "miss"]

/-- The hierarchy-matching loop of filemap.py:287-296: walk the hierarchy
rows in order and keep the first row all of whose tags are keys of the
instruction. -/
def findRow : List (List String) → List (String × String) → Option (List String)
  | [], _ => none
  | hrow :: rest, fields =>
      if hrow.all (fun h => assocHas fields h) then some hrow
      else findRow rest fields

/-- The alternating tag/value key path walked for a matched hierarchy row
(filemap.py:290-295): for each tag `h` of the row, the keys `h` and
`inst[h]`; a missing tag raises KeyError (unreachable after a successful
match, but kept for fidelity to `inst[h]`). -/
def buildRowPath : List String → List (String × String) → Except PyErr (List String)
  | [], _ => .ok []
  | h :: rest, fields =>
      match assocLookup fields h with
      | some v =>
          match buildRowPath rest fields with
          | .ok t => .ok (h :: v :: t)
          | .error e => .error e
      | none => .error (.keyError h)

/-- The synthesized hierarchy row of filemap.py:299-309: the instruction's
non-reserved field names, in encounter order. -/
def synthRow (fields : List (String × String)) : List String :=
  (fields.filter (fun kv => !(knownFilekeys.contains kv.1))).map Prod.fst

/-- The alternating tag/value key path walked while synthesizing a row
(filemap.py:301-307). -/
def buildSynthPath (fields : List (String × String)) : List String :=
  (fields.filter (fun kv => !(knownFilekeys.contains kv.1))).foldr
    (fun kv t => kv.1 :: kv.2 :: t) []

/-- The stepwise descent-with-creation of filemap.py:292-295/304-307 plus
the final `dat[flnm] = ...` of line 313, as one functional insertion: each
path key descends into the existing child (created as an empty dict when
absent), and the leaf is written at the end.  Descending into (or assigning
into) an existing leaf record mirrors item assignment on an immutable
`pyr.pmap`, which raises TypeError. -/
def treeInsert : DTree → List String → String → DTree → Except PyErr DTree
  | .leaf _, _, _, _ => .error (.typeError "pmap object does not support item assignment")
  | .node ch, [], flnm, lf => .ok (.node (assocSet ch flnm lf))
  | .node ch, k :: rest, flnm, lf =>
      match treeInsert ((assocLookup ch k).getD (.node [])) rest flnm lf with
      | .ok sub => .ok (.node (assocSet ch k sub))
      | .error e => .error e

/-- The common tail of `handle_file` on a mapping (filemap.py:310-314),
after the insertion path and the updated hierarchy list have been fixed: the
relative filename is `os.path.join(*dirstack)` — raising TypeError when the
stack is empty — the leaf `pyr.pmap(inst).set('_relpath', flnm)` is inserted
at the alternating tag/value path, and the flat table gains
`data_files[flnm] = inst`. -/
def handleFileTail (fields : List (String × String)) (st : PIState)
    (path : List String) (hiers : List (List String)) :
    Except PyErr PIState :=
  match pathJoinList st.dirstack with
  | .error e => .error e
  | .ok flnm =>
      match treeInsert st.tree path flnm (.leaf (assocSet fields "_relpath" flnm)) with
      | .error e => .error e
      | .ok tree2 =>
          .ok { dirstack := st.dirstack, tree := tree2,
                files := assocSet st.files flnm fields, hierarchies := hiers }

/-- `handle_file` on a single mapping instruction (filemap.py:284-315):
choose the first fully matching hierarchy row (keeping the hierarchy list
unchanged), else synthesize a row from the non-reserved fields and append it
for reuse by later files; either way the leaf is then recorded by
`handleFileTail`. -/
def handleFileMap (fields : List (String × String)) (st : PIState) :
    Except PyErr PIState :=
  match findRow st.hierarchies fields with
  | some hrow =>
      match buildRowPath hrow fields with
      | .error e => .error e
      | .ok path => handleFileTail fields st path st.hierarchies
  | none =>
      handleFileTail fields st (buildSynthPath fields)
        (st.hierarchies ++ [synthRow fields])

/-- Python truthiness of the optional directory name (`if k:` / `if dnm:` at
filemap.py:320/326/332): `None` and the empty string are falsy. -/
def truthy : Option String → Bool
  | some s => s ≠ ""
  | none => false

mutual

/-- `handle_inst(inst, k)` (filemap.py:325-333): push a truthy directory
name, dispatch — a mapping to `handle_file`, an empty sequence or one with a
non-mapping head to `handle_dir`, a list or tuple with a mapping head to
`handle_file`, anything else is the "Illegal instruction type" ValueError —
then pop the pushed name.  A LIST with a mapping head reaches `handle_file`,
which tests `isinstance(inst, tuple)` — false — and then treats the list as
a mapping: no hierarchy tag can be a member of a list of dicts, so row
matching fails and the synthesis loop calls `six.iteritems` on a list,
raising AttributeError (and under a vacuous empty hierarchy row the leaf
write `pyr.pmap(list)` raises instead); this always-raising branch is
embedded as the AttributeError. -/
def handleInst (inst : PyInst) (nm : Option String) (st : PIState) :
    Except PyErr PIState :=
  let pushed := truthy nm
  let st1 := if pushed then { st with dirstack := st.dirstack ++ [nm.getD ""] } else st
  let r : Except PyErr PIState :=
    match inst with
    | .pmap fields => handleFileMap fields st1
    | .pstr s => .error (.valueError ("Illegal instruction type: " ++ s))
    | .ptuple es =>
        match es with
        | .pmap _ :: _ => handleFileSeq es st1
        | _ => handleDir es none st1
    | .plist es =>
        match es with
        | .pmap _ :: _ => .error (.attributeError "items")
        | _ => handleDir es none st1
  match r with
  | .error e => .error e
  | .ok st2 =>
      .ok (if pushed then { st2 with dirstack := st2.dirstack.dropLast } else st2)

/-- The tuple branch of `handle_file` (filemap.py:281-283): each element is
handled in order by `handle_file`, threading the state. -/
def handleFileSeq (es : List PyInst) (st : PIState) : Except PyErr PIState :=
  match es with
  | [] => .ok st
  | e :: rest =>
      match handleFileOne e st with
      | .error err => .error err
      | .ok st2 => handleFileSeq rest st2

/-- `handle_file` on one element (filemap.py:279-315): tuples recurse
element-wise, mappings are the real case; a string or list element reaching
`handle_file` is treated by the source as a mapping and always raises while
matching or synthesizing (string indexing / `iteritems` on a non-mapping),
embedded as the corresponding error. -/
def handleFileOne (e : PyInst) (st : PIState) : Except PyErr PIState :=
  match e with
  | .ptuple es => handleFileSeq es st
  | .pmap fields => handleFileMap fields st
  | .pstr _ => .error (.typeError "string indices must be integers")
  | .plist _ => .error (.attributeError "items")

/-- `handle_dir(inst)` (filemap.py:316-324): iterate the elements with a
pending directory name `dnm`; a truthy pending name is consumed by handling
the next element under it, a string sets the pending name, a 2-tuple is
handled directly (its own recursion through `handle_inst` re-reads it as a
name/instruction pair), and any other element with no pending name is the
"Bad dir content" ValueError. -/
def handleDir (es : List PyInst) (dnm : Option String) (st : PIState) :
    Except PyErr PIState :=
  match es with
  | [] => .ok st
  | k :: rest =>
      if truthy dnm then
        match handleInst k dnm st with
        | .error e => .error e
        | .ok st2 => handleDir rest none st2
      else
        match k with
        | .pstr s => handleDir rest (some s) st
        | .ptuple es2 =>
            if es2.length = 2 then
              match handleInst k dnm st with
              | .error e => .error e
              | .ok st2 => handleDir rest none st2
            else .error (.valueError "Bad dir content")
        | _ => .error (.valueError "Bad dir content")

end

/-- The `hierarchy` argument of `parse_instructions` as the three shapes the
source distinguishes (filemap.py:275-276): absent/None, a single row (a list
whose first element is a string, wrapped into `[hierarchy]`), or a list of
rows. -/
inductive HierArg where
  | noHier
  | single (row : List String)
  | multi (rows : List (List String))
deriving Repr, DecidableEq

/-- filemap.py:275-276: None or an empty value gives no rows; a non-empty
list whose first element is a string is one row; otherwise the list of rows
is used as given. -/
def normalizeHierarchy : HierArg → List (List String)
  | .noHier => []
  | .single row => if row.isEmpty then [] else [row]
  | .multi rows => rows

/-- `FileMap.parse_instructions(inst, hierarchy)` (filemap.py:256-335):
run `handle_inst` from an empty directory stack, empty tree and empty flat
table, and return `(data_files, data_tree)`. -/
def parseInstructions (inst : PyInst) (hierarchy : HierArg) :
    Except PyErr ((List (String × List (String × String))) × DTree) :=
  match handleInst inst none
      { dirstack := [], tree := .node [], files := [],
        hierarchies := normalizeHierarchy hierarchy } with
  | .error e => .error e
  | .ok st => .ok (st.files, st.tree)


/-! ## FileMap.data_files and FileMap.data_tree (filemap.py:386-435)

Both are pimms lazy values: they are computed on first attribute access, and
`data_tree` lists `data_files` among its dependencies, so computing it first
forces `data_files`.  Their bodies are embedded including the unresolvable
names they evaluate: functions defined in a class body do not see class
attributes as bare names, so `_path_to_pathgen` (line 393) raises NameError,
the loop target `fn` (line 406) is never bound, and `FileMap` has no
attribute `_deduce_filename` (line 429). -/

/-- `FileMap.data_files` (filemap.py:386-409).  Its first statement,
`spaths = {s:_path_to_pathgen(p) for (s,p) in six.iteritems(supplemental_paths)}`
together with `spaths[None] = _path_to_pathgen(path)` (lines 393-394),
evaluates the bare name `_path_to_pathgen`; that name is a static method of
`FileMap`, visible only as `FileMap._path_to_pathgen`, and is not a module
global, so accessing the attribute raises NameError("_path_to_pathgen")
before any file entry is built.  The rest of the body (the `res` loop of
lines 402-408) is unreachable and is modelled separately as
`dataFilesLoop`. -/
def dataFilesValue (path : String)
    (supplemental_paths : List (String × String))
    (path_parameters meta_data : List (String × String))
    (parsedFiles : List (String × List (String × String))) :
    Except PyErr (List (String × Unit)) :=
  .error (.nameError "_path_to_pathgen")

/-- The `res` loop of `FileMap.data_files` (filemap.py:402-408), the code
that would run after line 393 if the `spaths` construction did not raise:
for each declared file it first evaluates
`FileMap._parse_path(flnm, path, supplemental_paths, path_parameters, inst)`
(line 404) — formatting the filename template eagerly, for every file, while
the mapping is being built — and then assigns `res[fn] = curry(...)`
(line 406), whose index `fn` is an unbound name, raising NameError on the
first iteration.  So with a non-empty file table the loop either raises the
template KeyError of the first entry or NameError("fn"); only the empty
table yields a (lazy, empty) mapping. -/
def dataFilesLoop (path : String) (spathNames : List String)
    (path_parameters : List (String × String))
    (files : List (String × List (String × String))) :
    Except PyErr (List (String × Unit)) :=
  match files with
  | [] => .ok []
  | (flnm, inst) :: _ =>
      match parsePath flnm path spathNames path_parameters inst with
      | .error e => .error e
      | .ok _ => .error (.nameError "fn")

/-- The lazily structured result tree `data_tree` would produce: inner
mappings, and at each file leaf a memoized thunk keyed by filename.  (No
leaf thunk is ever built by the source; see `visitMaps`.) -/
inductive VTree where
  | node (children : List (String × VTree))
  | thunk (flnm : String)
deriving Repr

mutual

/-- `visit_data(d)` (filemap.py:418-420): apply `visit_maps` to every value
of the dict and wrap the result with `data_struct` (an external constructor,
embedded structurally as a node).  A non-empty leaf record reaching
`visit_data` is iterated as string-valued pairs and `visit_maps` on a string
raises AttributeError("items"); an empty one yields an empty structure. -/
def visitData (t : DTree) : Except PyErr VTree :=
  match t with
  | .leaf [] => .ok (.node [])
  | .leaf (_ :: _) => .error (.attributeError "items")
  | .node ch =>
      match visitDataList ch with
      | .ok l => .ok (.node l)
      | .error e => .error e

def visitDataList (ch : List (String × DTree)) :
    Except PyErr (List (String × VTree)) :=
  match ch with
  | [] => .ok []
  | (k, v) :: rest =>
      match visitMaps v with
      | .error e => .error e
      | .ok r =>
          match visitDataList rest with
          | .ok rs => .ok ((k, r) :: rs)
          | .error e => .error e

/-- `visit_maps(m)` (filemap.py:421-434): for each child `v` of the dict,
when `v` is non-empty and its first value contains `'_relpath'` the source
takes the first item `(flnm, inst)` and eagerly evaluates
`FileMap._deduce_filename(flnm, ...)` (line 429) before building the lazy
thunk — but `FileMap` has no attribute `_deduce_filename`, so every file
leaf raises AttributeError at tree-construction time; otherwise the child is
visited by `visit_data`.  A leaf record reaching `visit_maps` has its first
string field value probed with `six.itervalues`, raising
AttributeError("values"). -/
def visitMaps (t : DTree) : Except PyErr VTree :=
  match t with
  | .leaf [] => .ok (.node [])
  | .leaf ((_, v0) :: _) =>
      if v0 = "" then .error (.attributeError "items")
      else .error (.attributeError "values")
  | .node ch =>
      match visitMapsList ch with
      | .ok l => .ok (.node l)
      | .error e => .error e

def visitMapsList (ch : List (String × DTree)) :
    Except PyErr (List (String × VTree)) :=
  match ch with
  | [] => .ok []
  | (k, v) :: rest =>
      let firstHasRelpath : Bool :=
        match v with
        | .leaf [] => false
        | .leaf ((_, v0) :: _) => strContains v0 "_relpath"
        | .node [] => false
        | .node ((_, .leaf cfs) :: _) => assocHas cfs "_relpath"
        | .node ((_, .node cch) :: _) => assocHas cch "_relpath"
      let rE : Except PyErr VTree :=
        if firstHasRelpath then .error (.attributeError "_deduce_filename")
        else visitData v
      match rE with
      | .error e => .error e
      | .ok r =>
          match visitMapsList rest with
          | .ok rs => .ok ((k, r) :: rs)
          | .error e => .error e

end

/-- `FileMap.data_tree` (filemap.py:410-435): a pimms value whose declared
dependencies include `data_files`, so the first access computes
`dataFilesValue` (which raises NameError("_path_to_pathgen")); were that to
succeed, `visit_data` over the parsed skeleton tree runs next. -/
def dataTreeValue (path : String)
    (supplemental_paths : List (String × String))
    (path_parameters meta_data : List (String × String))
    (parsed : (List (String × List (String × String))) × DTree) :
    Except PyErr VTree :=
  match dataFilesValue path supplemental_paths path_parameters meta_data parsed.1 with
  | .error e => .error e
  | .ok _ => visitData parsed.2

/-! ## Helper lemmas -/

lemma assocLookup_nil {α : Type} (k : String) :
    assocLookup ([] : List (String × α)) k = none := rfl

lemma assocLookup_cons {α : Type} (kv : String × α) (l : List (String × α))
    (k : String) :
    assocLookup (kv :: l) k = if kv.1 = k then some kv.2 else assocLookup l k := by
  unfold assocLookup
  rw [List.find?_cons]
  by_cases h : kv.1 = k
  · simp [h]
  · simp [h]

lemma assocSet_cons {α : Type} (kv : String × α) (l : List (String × α))
    (k : String) (v : α) :
    assocSet (kv :: l) k v
      = if kv.1 = k then (k, v) :: l else kv :: assocSet l k v := rfl

lemma assocLookup_eq_none_iff {α : Type} (l : List (String × α)) (k : String) :
    assocLookup l k = none ↔ ∀ kv ∈ l, kv.1 ≠ k := by
  induction l with
  | nil => simp [assocLookup_nil]
  | cons kv rest ih =>
      rw [assocLookup_cons]
      by_cases h : kv.1 = k
      · simp [h]
      · simp [h, ih]

lemma assocHas_of_mem {α : Type} {l : List (String × α)} {kv : String × α}
    (h : kv ∈ l) : assocHas l kv.1 = true := by
  unfold assocHas
  cases hf : assocLookup l kv.1 with
  | some v => rfl
  | none =>
      exact absurd rfl ((assocLookup_eq_none_iff l kv.1).mp hf kv h)

lemma assocLookup_set_self {α : Type} (l : List (String × α)) (k : String) (v : α) :
    assocLookup (assocSet l k v) k = some v := by
  induction l with
  | nil => simp [assocSet, assocLookup_cons]
  | cons kv rest ih =>
      rw [assocSet_cons]
      by_cases h : kv.1 = k
      · simp [h, assocLookup_cons]
      · simp only [h, if_false]
        rw [assocLookup_cons, if_neg h]
        exact ih

lemma assocLookup_set_ne {α : Type} (l : List (String × α)) (k k2 : String) (v : α)
    (h : k2 ≠ k) : assocLookup (assocSet l k v) k2 = assocLookup l k2 := by
  induction l with
  | nil => simp [assocSet, assocLookup_cons, assocLookup_nil, Ne.symm h]
  | cons kv rest ih =>
      rw [assocSet_cons]
      by_cases hk : kv.1 = k
      · rw [if_pos hk, assocLookup_cons, assocLookup_cons]
        rw [if_neg (Ne.symm h), if_neg (by rw [hk]; exact Ne.symm h)]
      · rw [if_neg hk, assocLookup_cons, assocLookup_cons]
        by_cases h2 : kv.1 = k2
        · rw [if_pos h2, if_pos h2]
        · rw [if_neg h2, if_neg h2]
          exact ih

lemma pymerge_foldl_notmem {α : Type} (b : List (String × α)) :
    ∀ (acc : List (String × α)) (k : String), (∀ kv ∈ b, kv.1 ≠ k) →
      assocLookup (b.foldl (fun acc kv => assocSet acc kv.1 kv.2) acc) k
        = assocLookup acc k := by
  induction b with
  | nil => intro acc k h; rfl
  | cons kv rest ih =>
      intro acc k h
      simp only [List.foldl_cons]
      rw [ih (assocSet acc kv.1 kv.2) k (fun kv2 hm => h kv2 (List.mem_cons_of_mem _ hm))]
      exact assocLookup_set_ne acc kv.1 k kv.2
        (fun he => h kv (List.mem_cons_self _ _) he.symm)

lemma pymerge_lookup_right {α : Type} (a b : List (String × α)) (k : String) (v : α)
    (hnd : (b.map Prod.fst).Nodup) (h : assocLookup b k = some v) :
    assocLookup (pymerge a b) k = some v := by
  induction b generalizing a with
  | nil => simp [assocLookup_nil] at h
  | cons kv rest ih =>
      unfold pymerge at ih ⊢
      simp only [List.foldl_cons]
      simp only [List.map_cons, List.nodup_cons] at hnd
      rw [assocLookup_cons] at h
      by_cases hk : kv.1 = k
      · rw [if_pos hk] at h
        have hrest : ∀ kv2 ∈ rest, kv2.1 ≠ k := by
          intro kv2 hm he
          apply hnd.1
          rw [hk, ← he]
          exact List.mem_map_of_mem Prod.fst hm
        rw [pymerge_foldl_notmem rest (assocSet a kv.1 kv.2) k hrest]
        rw [← hk, assocLookup_set_self]
        exact h
      · rw [if_neg hk] at h
        exact ih (assocSet a kv.1 kv.2) hnd.2 h

lemma pymerge_lookup_left {α : Type} (a b : List (String × α)) (k : String)
    (h : assocLookup b k = none) :
    assocLookup (pymerge a b) k = assocLookup a k :=
  pymerge_foldl_notmem b a k ((assocLookup_eq_none_iff b k).mp h)

lemma stripLoop_nil (fm : String) : stripLoop [] fm = (none, fm) := rfl

lemma stripLoop_cons (n : String) (rest : List String) (fm : String) :
    stripLoop (n :: rest) fm
      = if strStartsWith fm (n ++ ":") then (some n, strDropChars fm (n.length + 1))
        else stripLoop rest fm := rfl

lemma stripLoop_eq_none (names : List String) (fm : String)
    (h : ∀ n ∈ names, strStartsWith fm (n ++ ":") = false) :
    stripLoop names fm = (none, fm) := by
  induction names with
  | nil => rfl
  | cons n rest ih =>
      rw [stripLoop_cons, h n (List.mem_cons_self _ _)]
      simp only [Bool.false_eq_true, if_false]
      exact ih (fun n2 hm => h n2 (List.mem_cons_of_mem _ hm))

lemma stripLoop_first (pre : List String) (n : String) (post : List String)
    (fm : String)
    (hpre : ∀ m2 ∈ pre, strStartsWith fm (m2 ++ ":") = false)
    (hn : strStartsWith fm (n ++ ":") = true) :
    stripLoop (pre ++ n :: post) fm = (some n, strDropChars fm (n.length + 1)) := by
  induction pre with
  | nil =>
      rw [List.nil_append, stripLoop_cons, hn]
      simp
  | cons m2 rest ih =>
      rw [List.cons_append, stripLoop_cons, hpre m2 (List.mem_cons_self _ _)]
      simp only [Bool.false_eq_true, if_false]
      exact ih (fun m3 hm => hpre m3 (List.mem_cons_of_mem _ hm))

lemma findRow_nil (fields : List (String × String)) : findRow [] fields = none := rfl

lemma findRow_cons (hrow : List String) (rest : List (List String))
    (fields : List (String × String)) :
    findRow (hrow :: rest) fields
      = if hrow.all (fun h => assocHas fields h) then some hrow
        else findRow rest fields := rfl

lemma findRow_eq_find? (hs : List (List String)) (fields : List (String × String)) :
    findRow hs fields = hs.find? (fun r => r.all fun h => assocHas fields h) := by
  induction hs with
  | nil => rfl
  | cons hrow rest ih =>
      rw [findRow_cons, List.find?_cons]
      by_cases h : (hrow.all fun h => assocHas fields h) = true
      · simp [h]
      · simp only [Bool.not_eq_true] at h
        simp [h, ih]

lemma synthRow_all (fields : List (String × String)) :
    ((synthRow fields).all fun h => assocHas fields h) = true := by
  rw [List.all_eq_true]
  intro h hm
  unfold synthRow at hm
  rcases List.mem_map.mp hm with ⟨kv, hkv, hfst⟩
  rw [← hfst]
  exact assocHas_of_mem (List.mem_of_mem_filter hkv)

/-! ## Claim theorems -/

/-- C1 (code bug): the claim says that any exception during resolution,
loading or filtering of one file is caught and becomes `None`, never
propagated, and that a "no value" result with a `miss` field either raises
MissingFileError (for the raise sentinel) or calls `miss`.  The code's
miss-handling block (filemap.py:349-356) is an elif chain over a local
`miss` that is assigned only in its first branch, so: a load that succeeds
with a value raises UnboundLocalError("miss") to the caller (first
conjunct); a failed load whose instruction has `miss = 'error'` (the raise
sentinel) returns None instead of raising (second conjunct); a failed load
with no miss field raises UnboundLocalError("miss") instead of returning
None (third conjunct); and a failed path resolution raises
UnboundLocalError("args") from the `'miss' in args` test (fourth
conjunct). -/
theorem c1_load_miss_policy_code_bug :
    pyLoad (fun f => .ok ("/d/" ++ f)) "a.mgz"
        (fun _ _ => .ok (some "loaded")) [[("type", "x")]]
      = .error (.unboundLocal "miss")
  ∧ pyLoad (fun f => .ok ("/d/" ++ f)) "a.mgz"
        (fun _ _ => .error (.valueError "corrupt file")) [[("miss", "error")]]
      = .ok none
  ∧ pyLoad (fun f => .ok ("/d/" ++ f)) "a.mgz"
        (fun _ _ => .error (.valueError "corrupt file")) [[("type", "x")]]
      = .error (.unboundLocal "miss")
  ∧ pyLoad (fun _ => .error (.valueError "no such path")) "a.mgz"
        (fun _ _ => .ok (some "loaded")) [[("miss", "error")]]
      = .error (.unboundLocal "args") :=
  ⟨rfl, rfl, rfl, rfl⟩

/-- C4 counterexample: on the directory backend, `exists` is an existence
check but `resolve`/`materialize` is a bare `os.path.join` with no check and
no way to raise (filemap.py:100-101), so on a filesystem where `d/f` does
not exist, `exists` answers false while materialize still succeeds and
returns the joined path — refuting the claimed equivalence at this input. -/
theorem c4_counterexample_dir_backend :
    dirExists "d" "f" (fun _ => false) = false
  ∧ dirGetpath "d" "f" = "d/f" :=
  ⟨rfl, rfl⟩

/-- C4 amended: the equivalence "`exists` returns true iff `materialize`
succeeds" holds for the archive backend (cache hit, or extractable member),
and for the URL backend it holds only because both operations raise together
on any cache miss (`os.path.hoin` / `PsudoDir` are misspelled names), while
for the directory backend materialize is the bare join `pathJoin2` — total,
never raising — so only the forward direction can hold there. -/
theorem c4_amended_exists_iff_materialize :
    (∀ t c p (w : TarWorld),
        tarExists t c p w = true ↔ exOk (tarGetpath t c p w) = true)
  ∧ (∀ u c p (w : UrlWorld),
        urlExists u c p w = .ok true ↔ exOk (urlGetpath u c p w) = true)
  ∧ (∀ s p, dirGetpath s p = pathJoin2 s p) := by
  refine ⟨?_, ?_, fun s p => rfl⟩
  · intro t c p w
    unfold tarExists tarGetpath exOk
    cases h1 : w.cached.contains (pathJoin2 c p) with
    | true => simp
    | false =>
        cases h2 : w.members.contains p with
        | true => simp
        | false => simp
  · intro u c p w
    unfold urlExists urlGetpath exOk
    cases h1 : w.cached.contains (pathJoin2 c p) with
    | true => simp
    | false => simp

/-- C7 counterexample: classification starts with the `os.path.isdir` test
(filemap.py:97), which precedes the `s3:` rejection of line 107; a source
specification that names an existing local directory called `s3:data` is
therefore classified as a directory backend rather than rejected, refuting
the unconditional "any specification beginning with an s3 scheme is
rejected" at this input. -/
theorem c7_counterexample_s3_directory :
    pathData ⟨fun s => s == "s3:data", fun _ => false⟩ "s3:data" none "/tmp/cache"
      = .ok (.dirBackend "s3:data")
  ∧ strStartsWith (strLower "s3:data") "s3:" = true :=
  ⟨rfl, by decide⟩

/-- C7 amended: for any specification that does not name an existing local
directory, an `s3:` prefix (case-insensitive) is rejected with the dedicated
"S3 URLs are not yet supported" ValueError before any other classification;
and a specification matching none of the recognized shapes — not a
directory, not s3, not a reachable URL, containing no tarball-ending-colon
marker and ending in no tarball extension — fails with the
`InvalidSourceError` ValueError of filemap.py:135. -/
theorem c7_amended_classification_failure :
    (∀ (env : Env) sp cp tc,
        env.isdir sp = false →
        strStartsWith (strLower sp) "s3:" = true →
        pathData env sp cp tc = .error (.valueError "S3 URLs are not yet supported"))
  ∧ (∀ (env : Env) sp cp tc,
        env.isdir sp = false →
        strStartsWith (strLower sp) "s3:" = false →
        env.isURL sp = false →
        (∀ s ∈ tarballEndings, strContains sp (s ++ ":") = false) →
        (∀ s ∈ tarballEndings, strEndsWith sp s = false) →
        pathData env sp cp tc
          = .error (.valueError ("Could not interpret source path: " ++ sp))) := by
  constructor
  · intro env sp cp tc hdir hs3
    unfold pathData
    rw [hdir, hs3]
    simp
  · intro env sp cp tc hdir hs3 hurl hsub hend
    unfold pathData
    rw [hdir, hs3, hurl]
    have h1 : tarballEndings.find? (fun s => strContains sp (s ++ ":")) = none := by
      rw [List.find?_eq_none]
      intro s hm
      simp [hsub s hm]
    have h2 : tarballEndings.find? (fun s => strEndsWith sp s) = none := by
      rw [List.find?_eq_none]
      intro s hm
      simp [hend s hm]
    simp only [Bool.false_eq_true, if_false]
    rw [h1, h2]

/-- C7 amended, witness: the two parts of the amended theorem applied at the
concrete specifications `s3:bucket/x` (rejected with the dedicated error)
and `plain-source` (no recognized shape, rejected as invalid), over an
environment with no directories and no reachable URLs. -/
theorem c7_amended_classification_failure_witness :
    pathData ⟨fun _ => false, fun _ => false⟩ "s3:bucket/x" none "/tmp/c"
      = .error (.valueError "S3 URLs are not yet supported")
  ∧ pathData ⟨fun _ => false, fun _ => false⟩ "plain-source" none "/tmp/c"
      = .error (.valueError ("Could not interpret source path: " ++ "plain-source")) :=
  ⟨c7_amended_classification_failure.1 _ "s3:bucket/x" none "/tmp/c" rfl (by decide),
   c7_amended_classification_failure.2 _ "plain-source" none "/tmp/c" rfl (by decide)
     rfl (by decide) (by decide)⟩

/-- C8 (confirmed): materialize/resolve is idempotent on every backend.  A
successful `_tar_getpath` leaves a world whose cache contains the returned
path, so the second call returns the same local path with the world — hence
the extraction count — unchanged; a successful `_url_getpath` is a cache hit
(the download branch always raises NameError("PsudoDir")), so the second
call returns the same path, with no fetch ever performed; the directory
backend's resolve is a pure join, so repeated calls are equal by
construction. -/
theorem c8_materialize_idempotent :
    (∀ t c p (w w2 : TarWorld) lp,
        tarGetpath t c p w = .ok (lp, w2) →
        tarGetpath t c p w2 = .ok (lp, w2))
  ∧ (∀ u c p (w w2 : UrlWorld) lp,
        urlGetpath u c p w = .ok (lp, w2) →
        urlGetpath u c p w2 = .ok (lp, w2) ∧ w2.fetches = w.fetches)
  ∧ (∀ s p, dirGetpath s p = dirGetpath s p) := by
  refine ⟨?_, ?_, fun s p => rfl⟩
  · intro t c p w w2 lp h
    unfold tarGetpath at h ⊢
    split at h
    next hc =>
      injection h with h2
      injection h2 with hlp hw
      subst hw
      subst hlp
      have hc2 : pathJoin2 c p ∈ w.cached := by simpa using hc
      simp [hc2]
    next hc =>
      split at h
      next hm =>
        injection h with h2
        injection h2 with hlp hw
        subst hw
        subst hlp
        simp
      next hm => exact absurd h (by simp)
  · intro u c p w w2 lp h
    unfold urlGetpath at h ⊢
    split at h
    next hc =>
      injection h with h2
      injection h2 with hlp hw
      subst hw
      subst hlp
      have hc2 : pathJoin2 c p ∈ w.cached := by simpa using hc
      exact ⟨by simp [hc2], rfl⟩
    next hc => exact absurd h (by simp)

/-- C8 witness: the tar part applied to a world with an empty cache and one
member `f` (the first call extracts, the second is a cache hit on the world
it produced), the URL part to a pre-cached world, and the directory part at
a concrete source. -/
theorem c8_materialize_idempotent_witness :
    tarGetpath "s.tar" "c" "f"
        { cached := ["c/f"], members := ["f"], extractions := 1 }
      = .ok ("c/f", { cached := ["c/f"], members := ["f"], extractions := 1 })
  ∧ (urlGetpath "http://h" "c" "f" { cached := ["c/f"], fetches := 0 }
      = .ok ("c/f", { cached := ["c/f"], fetches := 0 })
     ∧ ({ cached := ["c/f"], fetches := 0 } : UrlWorld).fetches
        = ({ cached := ["c/f"], fetches := 0 } : UrlWorld).fetches)
  ∧ dirGetpath "d" "f" = dirGetpath "d" "f" :=
  ⟨c8_materialize_idempotent.1 "s.tar" "c" "f"
      { cached := [], members := ["f"], extractions := 0 }
      { cached := ["c/f"], members := ["f"], extractions := 1 } "c/f" (by decide),
   c8_materialize_idempotent.2.1 "http://h" "c" "f"
      { cached := ["c/f"], fetches := 0 }
      { cached := ["c/f"], fetches := 0 } "c/f" (by decide),
   c8_materialize_idempotent.2.2 "d" "f"⟩

/-- C6 (confirmed): `_parse_path` formats the template over the union of
`path_parameters` and the instruction's own fields with the instruction
winning on conflicts (first two conjuncts: a key bound in the instruction
keeps the instruction's value in the merged map, and a key not bound there
falls back to `path_parameters`), and then either strips the first
configured supplemental-path name that prefixes the formatted string as
`name:` — returning `(name, remainder)` — or returns `(None, formatted)`
when no configured name matches (third conjunct). -/
theorem c6_parse_path_resolution :
    (∀ (pp inst : List (String × String)) k v,
        (inst.map Prod.fst).Nodup →
        assocLookup inst k = some v →
        assocLookup (pymerge pp inst) k = some v)
  ∧ (∀ (pp inst : List (String × String)) k,
        assocLookup inst k = none →
        assocLookup (pymerge pp inst) k = assocLookup pp k)
  ∧ (∀ flnm path names pp inst fm,
        formatTemplate flnm (pymerge pp inst) = .ok fm →
        ((∀ n ∈ names, strStartsWith fm (n ++ ":") = false) →
            parsePath flnm path names pp inst = .ok (none, fm))
        ∧ (∀ pre n post, names = pre ++ n :: post →
            (∀ m2 ∈ pre, strStartsWith fm (m2 ++ ":") = false) →
            strStartsWith fm (n ++ ":") = true →
            parsePath flnm path names pp inst
              = .ok (some n, strDropChars fm (n.length + 1)))) := by
  refine ⟨fun pp inst k v hnd h => pymerge_lookup_right pp inst k v hnd h,
          fun pp inst k h => pymerge_lookup_left pp inst k h, ?_⟩
  intro flnm path names pp inst fm hfmt
  constructor
  · intro hnone
    unfold parsePath
    rw [hfmt]
    show Except.ok (stripLoop names fm) = Except.ok (none, fm)
    rw [stripLoop_eq_none names fm hnone]
  · intro pre n post hnames hpre hn
    unfold parsePath
    rw [hfmt, hnames]
    show Except.ok (stripLoop (pre ++ n :: post) fm)
      = Except.ok (some n, strDropChars fm (n.length + 1))
    rw [stripLoop_first pre n post fm hpre hn]

/-- C6 witness: the three parts at concrete inputs — the instruction's
`hemi = lh` wins over the path parameter `hemi = rh`; the unbound key `sub`
falls back to the path parameters; a formatted name with no configured
prefix resolves to the primary directory; and a formatted `sub:lh.mgz` with
configured supplemental name `sub` resolves to that name with the prefix
stripped. -/
theorem c6_parse_path_resolution_witness :
    assocLookup (pymerge [("hemi", "rh")] [("hemi", "lh")]) "hemi" = some "lh"
  ∧ assocLookup (pymerge [("sub", "s1")] [("hemi", "lh")]) "sub"
      = assocLookup [("sub", "s1")] "sub"
  ∧ parsePath "\x7bhemi\x7d.thickness" "/r" ["ctx"] [("hemi", "rh")] [("hemi", "lh")]
      = .ok (none, "lh.thickness")
  ∧ parsePath "sub:\x7bhemi\x7d.mgz" "/r" ["sub"] [] [("hemi", "lh")]
      = .ok (some "sub", strDropChars "sub:lh.mgz" 4) :=
  ⟨c6_parse_path_resolution.1 [("hemi", "rh")] [("hemi", "lh")] "hemi" "lh"
      (by decide) rfl,
   c6_parse_path_resolution.2.1 [("sub", "s1")] [("hemi", "lh")] "sub" rfl,
   (c6_parse_path_resolution.2.2 "\x7bhemi\x7d.thickness" "/r" ["ctx"]
      [("hemi", "rh")] [("hemi", "lh")] "lh.thickness" rfl).1 (by decide),
   (c6_parse_path_resolution.2.2 "sub:\x7bhemi\x7d.mgz" "/r" ["sub"]
      [] [("hemi", "lh")] "sub:lh.mgz" rfl).2 [] "sub" [] rfl
      (by intro m2 hm; cases hm) (by decide)⟩

lemma find?_append_none {α : Type} (l1 l2 : List α) (p : α → Bool)
    (h : l1.find? p = none) : (l1 ++ l2).find? p = l2.find? p := by
  induction l1 with
  | nil => rfl
  | cons a rest ih =>
      rw [List.find?_cons] at h
      rw [List.cons_append, List.find?_cons]
      cases hp : p a with
      | true => rw [hp] at h; simp at h
      | false =>
          rw [hp] at h
          simp only at h ⊢
          exact ih h

lemma handleFileTail_ok_hierarchies (fields : List (String × String))
    (st : PIState) (path : List String) (hiers : List (List String))
    (st2 : PIState) (h : handleFileTail fields st path hiers = .ok st2) :
    st2.hierarchies = hiers := by
  unfold handleFileTail at h
  split at h
  · exact absurd h (by simp)
  · split at h
    · exact absurd h (by simp)
    · injection h with h
      rw [← h]

lemma handleFileTail_empty_dirstack (fields : List (String × String))
    (st : PIState) (path : List String) (hiers : List (List String))
    (hd : st.dirstack = []) :
    handleFileTail fields st path hiers
      = .error (.typeError "join() missing 1 required positional argument") := by
  unfold handleFileTail
  rw [hd]
  rfl

lemma handleFileMap_empty_dirstack (fields : List (String × String))
    (st : PIState) (hd : st.dirstack = []) :
    exOk (handleFileMap fields st) = false := by
  unfold handleFileMap
  split
  · split
    · rfl
    · rw [handleFileTail_empty_dirstack fields st _ _ hd]
      rfl
  · rw [handleFileTail_empty_dirstack fields st _ _ hd]
    rfl

/-- Unfolding bridge (definitional): `handle_inst` on a bare mapping with no
pending directory name pushes nothing and defers to `handle_file`. -/
lemma handleInst_pmap_none (fields : List (String × String)) (st : PIState) :
    handleInst (.pmap fields) none st
      = match handleFileMap fields st with
        | .error e => .error e
        | .ok st2 => .ok st2 := rfl

/-- Unfolding bridge (definitional): `handle_inst` on a tuple whose head is
a mapping defers to the element-wise `handle_file` recursion. -/
lemma handleInst_ptuple_mapHead (fields : List (String × String))
    (es : List PyInst) (st : PIState) :
    handleInst (.ptuple (.pmap fields :: es)) none st
      = match (match handleFileMap fields st with
               | .error e => .error e
               | .ok st2 => handleFileSeq es st2 : Except PyErr PIState) with
        | .error e => .error e
        | .ok st2 => .ok st2 := rfl

/-- C9 (confirmed): a file instruction is matched against the hierarchy rows
in order; when some row has all its tags among the instruction's keys, the
first such row — `List.find?` — is used and the hierarchy list is left
unchanged (first conjunct); when no row matches, the instruction's
non-reserved field names in encounter order — `synthRow` — are appended as
a new row, and that synthesized row is then what a later lookup for the same
instruction finds, so later files reuse it (second conjunct). -/
theorem c9_hierarchy_first_match_or_synthesize :
    ∀ (fields : List (String × String)) (st st2 : PIState),
      handleFileMap fields st = .ok st2 →
      ((∀ hrow,
          st.hierarchies.find? (fun r => r.all fun h => assocHas fields h)
            = some hrow →
          st2.hierarchies = st.hierarchies)
       ∧ (st.hierarchies.find? (fun r => r.all fun h => assocHas fields h)
            = none →
          st2.hierarchies = st.hierarchies ++ [synthRow fields]
          ∧ st2.hierarchies.find? (fun r => r.all fun h => assocHas fields h)
              = some (synthRow fields))) := by
  intro fields st st2 h
  unfold handleFileMap at h
  rw [findRow_eq_find?] at h
  split at h
  next hrow heq =>
    split at h
    next e hbp => exact absurd h (by simp)
    next path hbp =>
      have hh := handleFileTail_ok_hierarchies fields st path st.hierarchies st2 h
      constructor
      · intro hrow2 hsome
        exact hh
      · intro hnone
        rw [heq] at hnone
        exact absurd hnone (by simp)
  next heq =>
    have hh := handleFileTail_ok_hierarchies fields st (buildSynthPath fields)
      (st.hierarchies ++ [synthRow fields]) st2 h
    constructor
    · intro hrow2 hsome
      rw [heq] at hsome
      exact absurd hsome (by simp)
    · intro _
      refine ⟨hh, ?_⟩
      rw [hh, find?_append_none _ _ _ heq]
      simp [List.find?_cons, synthRow_all fields]

/-- The concrete instruction of the C9 witness. -/
def c9fields : List (String × String) := [("type", "x"), ("load", "L")]

/-- The C9 witness starting state: one enclosing directory segment and one
hierarchy row `[hemi]` that the instruction does not match. -/
def c9pre : PIState :=
  { dirstack := ["d"], tree := .node [], files := [], hierarchies := [["hemi"]] }

/-- The state `handle_file` produces from `c9pre` on `c9fields`. -/
def c9post : PIState :=
  { dirstack := ["d"],
    tree := .node [("type", .node [("x", .node [("d",
      .leaf [("type", "x"), ("load", "L"), ("_relpath", "d")])])])],
    files := [("d", [("type", "x"), ("load", "L")])],
    hierarchies := [["hemi"], ["type"]] }

/-- C9 witness: the theorem applied to the concrete instruction
`{type: x, load: L}` against a hierarchy holding only the non-matching row
`[hemi]`: the run succeeds, the synthesized row `[type]` (the reserved
`load` excluded) is appended, and a later lookup for the same instruction
finds it. -/
theorem c9_hierarchy_first_match_or_synthesize_witness :
    c9post.hierarchies = c9pre.hierarchies ++ [synthRow c9fields]
  ∧ c9post.hierarchies.find? (fun r => r.all fun h => assocHas c9fields h)
      = some (synthRow c9fields) :=
  (c9_hierarchy_first_match_or_synthesize c9fields c9pre c9post rfl).2 rfl

/-- C10 (confirmed, implicit claim): a bare file mapping at the top level of
an instruction set, or a tuple group of file mappings there, makes
`parse_instructions` fail rather than produce a table entry (first and
second conjuncts), because the relative filename is `os.path.join(*dirstack)`
over the stack of enclosing directory-name segments and that stack is empty
— indeed `handle_file` on a mapping fails whenever the directory stack is
empty (third conjunct), so every flat-table key of a successful parse was
joined from at least one enclosing path-segment string, never from the
instruction's own fields. -/
theorem c10_top_level_files_need_path_segment :
    (∀ (fields : List (String × String)) (h : HierArg),
        exOk (parseInstructions (.pmap fields) h) = false)
  ∧ (∀ (fields : List (String × String)) (es : List PyInst) (h : HierArg),
        exOk (parseInstructions (.ptuple (.pmap fields :: es)) h) = false)
  ∧ (∀ (fields : List (String × String)) (st : PIState),
        st.dirstack = [] → exOk (handleFileMap fields st) = false) := by
  refine ⟨?_, ?_, fun fields st hd => handleFileMap_empty_dirstack fields st hd⟩
  · intro fields h
    unfold parseInstructions
    rw [handleInst_pmap_none]
    cases hm : handleFileMap fields
        { dirstack := [], tree := .node [], files := [],
          hierarchies := normalizeHierarchy h } with
    | error e => rfl
    | ok st2 =>
        have hemp := handleFileMap_empty_dirstack fields
          { dirstack := [], tree := .node [], files := [],
            hierarchies := normalizeHierarchy h } rfl
        rw [hm] at hemp
        exact absurd hemp (by simp [exOk])
  · intro fields es h
    unfold parseInstructions
    rw [handleInst_ptuple_mapHead]
    cases hm : handleFileMap fields
        { dirstack := [], tree := .node [], files := [],
          hierarchies := normalizeHierarchy h } with
    | error e => rfl
    | ok st2 =>
        have hemp := handleFileMap_empty_dirstack fields
          { dirstack := [], tree := .node [], files := [],
            hierarchies := normalizeHierarchy h } rfl
        rw [hm] at hemp
        exact absurd hemp (by simp [exOk])

/-- C10 witness: the three parts at the concrete instruction `{a: b}` — as
a bare top-level mapping, as a one-element top-level tuple group, and
directly through `handle_file` on an empty directory stack. -/
theorem c10_top_level_files_need_path_segment_witness :
    exOk (parseInstructions (.pmap [("a", "b")]) .noHier) = false
  ∧ exOk (parseInstructions (.ptuple [.pmap [("a", "b")]]) .noHier) = false
  ∧ exOk (handleFileMap [("a", "b")]
      { dirstack := [], tree := .node [], files := [], hierarchies := [] }) = false :=
  ⟨c10_top_level_files_need_path_segment.1 [("a", "b")] .noHier,
   c10_top_level_files_need_path_segment.2.1 [("a", "b")] [] .noHier,
   c10_top_level_files_need_path_segment.2.2 [("a", "b")]
     { dirstack := [], tree := .node [], files := [], hierarchies := [] } rfl⟩

/-- The round-trip instruction set of the spec's testable properties: the
files `lh.thickness` and `rh.thickness`, each declared under its filename
segment with `type/hemi/name` tags. -/
def rtInstructions : PyInst :=
  .plist
    [.pstr "lh.thickness",
     .pmap [("type", "property"), ("hemi", "lh"), ("name", "thickness")],
     .pstr "rh.thickness",
     .pmap [("type", "property"), ("hemi", "rh"), ("name", "thickness")]]

/-- The hierarchy `[[hemi], [type]]` of the round-trip example. -/
def rtHierarchy : HierArg := .multi [["hemi"], ["type"]]

/-- The flat file table the parser produces for `rtInstructions`. -/
def rtFiles : List (String × List (String × String)) :=
  [("lh.thickness", [("type", "property"), ("hemi", "lh"), ("name", "thickness")]),
   ("rh.thickness", [("type", "property"), ("hemi", "rh"), ("name", "thickness")])]

/-- The skeleton tree the parser produces for `rtInstructions`: both files
match the row `[hemi]`, so they nest as `hemi -> lh/rh -> filename`. -/
def rtTree : DTree :=
  .node [("hemi", .node
    [("lh", .node [("lh.thickness",
        .leaf [("type", "property"), ("hemi", "lh"), ("name", "thickness"),
               ("_relpath", "lh.thickness")])]),
     ("rh", .node [("rh.thickness",
        .leaf [("type", "property"), ("hemi", "rh"), ("name", "thickness"),
               ("_relpath", "rh.thickness")])])])]


/-- C2 (code bug): the claim says `.dataFiles` yields a lazy mapping whose
keys are exactly the declared relative filenames, each value the file's
loaded (and memoized) content — and that is what the docstring at
filemap.py:389-392 promises.  The instruction parse does succeed and
declares exactly `lh.thickness` and `rh.thickness` (first two conjuncts),
but the value function's first statement evaluates the bare name
`_path_to_pathgen` (line 393), which is a FileMap static method and not a
module global, so the first access of `data_files` raises
NameError("_path_to_pathgen") instead of yielding any mapping (third
conjunct); were that line repaired, the loop would still stop at the
unbound name `fn` on line 406 (fourth conjunct: the round-trip filenames
contain no placeholders, so the eager formatting succeeds and the loop's
first assignment hits the unbound `fn`). -/
theorem c2_data_files_raises_name_error :
    parseInstructions rtInstructions rtHierarchy = .ok (rtFiles, rtTree)
  ∧ rtFiles.map Prod.fst = ["lh.thickness", "rh.thickness"]
  ∧ dataFilesValue "/data" [] [] [] rtFiles
      = .error (.nameError "_path_to_pathgen")
  ∧ dataFilesLoop "/data" [] [] rtFiles = .error (.nameError "fn") :=
  ⟨rfl, rfl, rfl, rfl⟩

/-- C3 (code bug): the claim says `.dataTree` is a structural copy of the
skeleton tree with memoized leaf thunks shared with `.dataFiles`, evaluated
lazily per leaf — as the docstring at filemap.py:412-414 promises.  As a
pimms value, `data_tree` depends on `data_files`, so its first access
computes that value and dies with the same NameError (first conjunct); and
independently of that, its own `visit_maps` eagerly evaluates
`FileMap._deduce_filename` (line 429) for the first file leaf it meets — an
attribute FileMap does not define — so walking the parsed round-trip
skeleton raises AttributeError("_deduce_filename") before any thunk is
built (second conjunct).  No lazy tree is ever produced. -/
theorem c3_data_tree_raises :
    dataTreeValue "/data" [] [] [] (rtFiles, rtTree)
      = .error (.nameError "_path_to_pathgen")
  ∧ visitData rtTree = .error (.attributeError "_deduce_filename") :=
  ⟨rfl, rfl⟩

/-- The template instruction set of the C5 example: one file whose filename
segment is the template `{hemi}.thickness.ext` and whose instruction has
only the tag `type` — so formatting needs a `hemi` entry from the path
parameters. -/
def tmplInstructions : PyInst :=
  .plist [.pstr "\x7bhemi\x7d.thickness.ext", .pmap [("type", "property")]]

/-- The flat file table parsed from `tmplInstructions` (the key is the
unformatted template). -/
def tmplFiles : List (String × List (String × String)) :=
  [("\x7bhemi\x7d.thickness.ext", [("type", "property")])]

/-- The skeleton tree parsed from `tmplInstructions` (synthesized hierarchy
row `[type]`). -/
def tmplTree : DTree :=
  .node [("type", .node [("property", .node [("\x7bhemi\x7d.thickness.ext",
    .leaf [("type", "property"), ("_relpath", "\x7bhemi\x7d.thickness.ext")])])])]

/-- C5 (code bug): the claim says a template referencing a parameter absent
from the merged map raises `TemplateResolutionError` only at the first
access of that file's lazy value, leaving siblings untouched.  The parse
itself succeeds (first conjunct) — so nothing is raised at construction —
but the first access of `data_files` raises NameError("_path_to_pathgen")
at line 393 before any template is even formatted (second conjunct); and the
`res` loop that would run after it (lines 402-408) calls
`FileMap._parse_path` eagerly for every declared file while the mapping is
being built, so the missing-`hemi` KeyError would surface while constructing
the whole table, aborting sibling entries too, not at one leaf's first
access (third conjunct); with `hemi` supplied the same loop still dies at
the unbound name `fn` (fourth conjunct). -/
theorem c5_template_error_timing :
    parseInstructions tmplInstructions .noHier = .ok (tmplFiles, tmplTree)
  ∧ dataFilesValue "/data" [] [] [] tmplFiles
      = .error (.nameError "_path_to_pathgen")
  ∧ dataFilesLoop "/data" [] [] tmplFiles = .error (.keyError "hemi")
  ∧ dataFilesLoop "/data" [] [("hemi", "lh")] tmplFiles
      = .error (.nameError "fn") :=
  ⟨rfl, rfl, rfl, rfl⟩
